import Mathlib

/-!
Verification of the LiveLex.ai lesson-session core.

This file shallowly embeds the session state machine of
`apps/backend/app/routers/base.py` (the WebSocket handler `ws_stream`, the
`SessionState` class, `detect_user_intent`, `generate_summary`,
`get_next_object_index`) and `apps/backend/app/routers/lesson_graph.py`
(`evaluate_node`, `feedback_node`, `prompt_user_node`, and the manual
evaluate-entry composition in `invoke_lesson_graph`).

Modelling conventions:
* Python strings are `List Char` so that the `in` substring operator and
  `.lower().strip()` are explicit executable functions.
* Python dicts keyed by item index are total functions `Nat -> Nat` with 0
  standing for an absent key.  The code never stores the value 0 in
  `item_attempts`, `item_hints_used` or `item_gave_up` (all stored values are
  at least 1), so `d.get(i, 0)` is `f i` and `d.get(i, 1)` is
  `if f i = 0 then 1 else f i`.
* `completed_objects` entries are `(index, correct)` where the Python value
  `True`/`False`/`None` becomes `some true`/`some false`/`none` (the `None`
  marker is what `evaluate_node` appends for a skipped object).
* External collaborators (ASR, the LLM judge, plan generation, storage) are
  oracle inputs carried on events; text bodies of outbound messages are not
  modelled, only their kinds and the fields the claims mention.
* Three runtime failures of the composed code are modelled as the handler
  branches that actually execute, with comments at the relevant spots:
  `feedback_node` passes seven positional arguments to the six-parameter
  `base.generate_summary` (TypeError, so the minimal fallback summary is
  built); `evaluate_node` passes `grammar_mode`/`grammar_tense`/
  `grammar_person`/`is_last_object` keywords, and omits the required
  `proficiency_level`, when calling `base.evaluate_response` (TypeError, so
  the default incorrect `EvaluationResult` is built); and
  `create_lesson_graph(...).compile()` fails langgraph's graph validation
  (`await_response` is a dead-end node, `evaluate` is unreachable), so the
  graph-entry invocation of `invoke_lesson_graph` always returns its
  caught-error state and `prompt_user` never runs from the plan handler.
-/

namespace LiveLex

/-- Characters of a Python string; substring tests mirror the `in` operator. -/
abbrev Str := List Char

/-- The apostrophe character (code point 39), used inside several keyword
strings of `detect_user_intent`. -/
def apoc : Char := Char.ofNat 39

/-- Python `str.lower()` restricted to the ASCII range exercised here. -/
def pyLower (s : Str) : Str := s.map Char.toLower

/-- Whitespace recognised by Python `str.strip()` (the forms that occur). -/
def isPySpace (c : Char) : Bool := c = ' ' || c = '\t' || c = '\n' || c = '\r'

/-- Python `str.strip()`. -/
def pyStrip (s : Str) : Str :=
  ((s.dropWhile isPySpace).reverse.dropWhile isPySpace).reverse

/-- Python `needle in hay` for strings. -/
def strContains (hay needle : Str) : Bool :=
  hay.tails.any (fun t => needle.isPrefixOf t)

/-- `hint_keywords` of `detect_user_intent` (base.py lines 703-706). -/
def hintKeywords : List Str :=
  [ "hint".toList, "help".toList, "clue".toList, "give me a hint".toList,
    "can you help".toList, "i need help".toList,
    "what".toList ++ [apoc] ++ "s a hint".toList,
    "ayuda".toList, "pista".toList, "ayúdame".toList ]

/-- `dont_know_keywords` of `detect_user_intent` (base.py lines 712-716). -/
def dontKnowKeywords : List Str :=
  [ "don".toList ++ [apoc] ++ "t know".toList, "dont know".toList,
    "no se".toList, "no sé".toList, "i give up".toList, "give up".toList,
    "tell me".toList, "what is it".toList,
    "what".toList ++ [apoc] ++ "s the answer".toList, "show me".toList,
    "i can".toList ++ [apoc] ++ "t".toList,
    "i dont know".toList,
    "i don".toList ++ [apoc] ++ "t know".toList,
    "skip".toList, "pass".toList ]

/-- The spec's closed intent enumeration.  The code represents intents as free
strings; `noObject` is included because `evaluate_node` branches on the string
"no_object", even though (as proved below) the classifier never produces it. -/
inductive Intent
  | hintRequest
  | dontKnow
  | noObject
  | answerAttempt
deriving DecidableEq, Repr

/-- Validation of the raw LLM reply in `detect_user_intent_with_llm`
(base.py lines 762-769): `response.content.strip().lower()` is accepted only
if it is one of the three strings `hint_request`, `dont_know`,
`answer_attempt`; anything else (including `no_object`, an LLM error, or a
missing API key) falls back to `answer_attempt`. -/
def llmIntentFilter (reply : Str) : Intent :=
  let r := pyLower (pyStrip reply)
  if r = "hint_request".toList then .hintRequest
  else if r = "dont_know".toList then .dontKnow
  else if r = "answer_attempt".toList then .answerAttempt
  else .answerAttempt

/-- `detect_user_intent` (base.py lines 685-726).  `useLLM` models
`context_message and settings.openai_api_key` being truthy, and `llmReply` is
the raw content of the external classification call. -/
def detectUserIntent (transcription : Str) (useLLM : Bool) (llmReply : Str) :
    Intent :=
  if transcription = [] then .answerAttempt
  else
    let textLower := pyStrip (pyLower transcription)
    if hintKeywords.any (fun k => strContains textLower k) then .hintRequest
    else if dontKnowKeywords.any (fun k => strContains textLower k) then
      .dontKnow
    else if useLLM then llmIntentFilter llmReply
    else .answerAttempt

example : detectUserIntent "help".toList false [] = .hintRequest := by decide

example : detectUserIntent "i dont know".toList false [] = .dontKnow := by
  decide

example :
    detectUserIntent ("I don".toList ++ [apoc] ++ "t have that".toList)
      false [] = .answerAttempt := by decide

/-- `Object` of `schemas/plan.py`. -/
structure Object where
  sourceName : Str
  targetName : Str
  action : Str
deriving DecidableEq, Repr

/-- `Plan` of `schemas/plan.py`. -/
structure Plan where
  sceneMessage : Str
  objects : List Object
deriving DecidableEq, Repr

/-- One record of `summary["items"]` as built by `base.generate_summary`. -/
structure SummaryItem where
  sourceName : Str
  targetName : Str
  action : Str
  correct : Option Bool
  userSaid : Str
  correctWord : Str
  attempts : Nat
  hintsUsed : Nat
  gaveUp : Bool
deriving DecidableEq, Repr

/-- The summary dict built by `base.generate_summary` (and, in its except
branch, by `feedback_node`). -/
structure Summary where
  items : List SummaryItem
  total : Nat
  correctCount : Nat
  incorrectCount : Nat
deriving DecidableEq, Repr

/-- A stored dialogue entry as read back by `generate_summary`:
`evalSourceName` is `object_tested.source_name` when the entry carries a user
evaluation, `none` otherwise. -/
structure DialogueEntry where
  speaker : Str
  text : Str
  evalSourceName : Option Str
  evalCorrect : Bool
deriving DecidableEq, Repr

/-- `base.generate_summary` (base.py lines 362-420), the six-parameter
function.  `d.get(idx, 1)` on the attempts dict becomes
`if itemAttempts idx = 0 then 1 else itemAttempts idx` per the dict
convention above. -/
def generateSummary (plan : Plan) (completedObjects : List (Nat × Option Bool))
    (dialogueEntries : List DialogueEntry)
    (itemAttempts itemHintsUsed itemGaveUp : Nat → Nat) : Summary :=
  let summaryItems : List SummaryItem :=
    completedObjects.filterMap (fun p =>
      if h : p.1 < plan.objects.length then
        let obj := plan.objects.get ⟨p.1, h⟩
        let attempts : List (Str × Bool) :=
          dialogueEntries.filterMap (fun e =>
            if e.speaker = "user".toList ∧ e.evalSourceName = some obj.sourceName
            then some (e.text, e.evalCorrect) else none)
        let userText : Str := ((attempts.getLast?).map Prod.fst).getD []
        some
          { sourceName := obj.sourceName
            targetName := obj.targetName
            action := obj.action
            correct := p.2
            userSaid := userText
            correctWord := obj.targetName
            attempts := if itemAttempts p.1 = 0 then 1 else itemAttempts p.1
            hintsUsed := itemHintsUsed p.1
            gaveUp := decide (0 < itemGaveUp p.1) }
      else none)
  { items := summaryItems
    total := summaryItems.length
    correctCount := completedObjects.countP (fun p => p.2 = some true)
    incorrectCount := completedObjects.countP (fun p => ¬ p.2 = some true) }

/-- The minimal summary built in the except branch of `feedback_node`
(lesson_graph.py lines 836-843).  Note Python truthiness: a skipped entry
stores `None`, which counts towards `incorrect_count` because
`not None` is `True`. -/
def fallbackSummary (completedObjects : List (Nat × Option Bool)) : Summary :=
  { items := []
    total := completedObjects.length
    correctCount := completedObjects.countP (fun p => p.2 = some true)
    incorrectCount := completedObjects.countP (fun p => ¬ p.2 = some true) }

/-- The `lesson_state` literals of `LessonState`. -/
inductive LState
  | PROMPT_USER
  | AWAIT_RESPONSE
  | EVALUATE
  | FEEDBACK
  | COMPLETE
deriving DecidableEq, Repr

/-- Status codes of the `status` payload sent by `send_status`. -/
def okCode : Str := "ok".toList

/-- The `warn` status code. -/
def warnCode : Str := "warn".toList

/-- The status code of rejected events. -/
def errCode : Str := "error".toList

/-- Outbound WebSocket messages; text bodies and audio are not modelled, only
the message kinds and the fields the claims inspect. -/
inductive Msg
  | statusMsg (code : Str)
  | asrFinal (utteranceId : Str)
  | planMsg
  | promptNext (objectIndex : Nat)
  | hintMsg
  | answerGiven
  | objectSkipped (objectIndex : Nat)
  | evaluationResult (objectIndex : Nat) (correct : Bool) (attemptNumber : Nat)
  | lessonComplete (summary : Summary)
deriving DecidableEq, Repr

/-- Pointwise update of an index-keyed dict. -/
def updN (f : Nat → Nat) (k v : Nat) : Nat → Nat :=
  fun n => if n = k then v else f n

/-- Pointwise update of a Bool-valued dict. -/
def updB (f : Nat → Bool) (k : Nat) (v : Bool) : Nat → Bool :=
  fun n => if n = k then v else f n

/-- The `LessonState` TypedDict of lesson_graph.py, restricted to the fields
that drive the control flow (languages, grammar settings and the session id
only parametrise external calls and message text). -/
structure GState where
  plan : Option Plan
  currentObjectIndex : Int
  completedObjects : List (Nat × Option Bool)
  itemAttempts : Nat → Nat
  itemHintsUsed : Nat → Nat
  itemGaveUp : Nat → Nat
  itemSkipped : Nat → Bool
  waitingForRepeat : Bool
  lessonState : LState
  lessonCompleted : Bool
  pendingTranscription : Option (Str × Str)
  pendingImage : Option (Str × Str)

/-- `base.get_next_object_index`: lowest plan index absent from
`completed_objects`, else -1. -/
def getNextObjectIndex (plan : Plan)
    (completedObjects : List (Nat × Option Bool)) : Int :=
  match (List.range plan.objects.length).find?
      (fun i => decide (i ∉ completedObjects.map Prod.fst)) with
  | some i => (i : Int)
  | none => -1

/-- The Python set `completed_indices` (insertion-order deduplication is
irrelevant; only membership and cardinality are used). -/
def completedIndices (completedObjects : List (Nat × Option Bool)) : List Nat :=
  (completedObjects.map Prod.fst).dedup

/-- Per-turn oracle inputs of `evaluate_node`: whether the LLM intent
fallback is reachable (`last_system_message` found and an API key set) and
the raw reply of that call. -/
structure TurnOracle where
  hasContext : Bool
  llmReply : Str
deriving DecidableEq, Repr

/-- `evaluate_node` (lesson_graph.py lines 248-793).  Guard order follows the
source: missing plan, negative index, missing transcription, missing image,
out-of-range index each force FEEDBACK without touching the rest of the
state; then the waiting-for-repeat branch, then intent detection and its
branches.  The call to `base.evaluate_response` raises `TypeError`
(`grammar_mode`, `grammar_tense`, `grammar_person` and `is_last_object` are
not parameters of the six-positional-parameter function in base.py, and the
required `proficiency_level` is omitted), so the except branch at lines
671-682 always builds the default result with `correct = False`; the
`generate_hint` / `give_answer_with_memory_aid` calls fail the same way, and
their except branches update the counters exactly as the success paths do. -/
def evaluateNode (s : GState) (orc : TurnOracle) : GState × List Msg :=
  match s.plan with
  | none => ({ s with lessonState := .FEEDBACK }, [])
  | some plan =>
    if s.currentObjectIndex < 0 then ({ s with lessonState := .FEEDBACK }, [])
    else
      match s.pendingTranscription with
      | none => ({ s with lessonState := .FEEDBACK }, [])
      | some (_utteranceId, transcription) =>
        match s.pendingImage with
        | none => ({ s with lessonState := .FEEDBACK }, [])
        | some _pendingImg =>
          -- below, `s.currentObjectIndex.toNat` is the source's local
          -- `current_object_index` and `s.itemAttempts ... + 1` its
          -- `current_attempt`
          if plan.objects.length ≤ s.currentObjectIndex.toNat then
            ({ s with lessonState := .FEEDBACK }, [])
          else
            if s.waitingForRepeat then
              ({ s with
                  completedObjects :=
                    s.completedObjects ++
                      [(s.currentObjectIndex.toNat, some false)]
                  waitingForRepeat := false
                  lessonState := .FEEDBACK
                  pendingTranscription := none
                  pendingImage := none }, [])
            else
              match detectUserIntent transcription orc.hasContext orc.llmReply with
              | .hintRequest =>
                if 2 ≤ s.itemHintsUsed s.currentObjectIndex.toNat then
                  ({ s with
                      lessonState := .AWAIT_RESPONSE
                      pendingTranscription := none
                      pendingImage := none }, [Msg.hintMsg])
                else
                  ({ s with
                      itemHintsUsed :=
                        updN s.itemHintsUsed s.currentObjectIndex.toNat
                          (s.itemHintsUsed s.currentObjectIndex.toNat + 1)
                      lessonState := .AWAIT_RESPONSE
                      pendingTranscription := none
                      pendingImage := none }, [Msg.hintMsg])
              | .dontKnow =>
                if 0 < s.itemHintsUsed s.currentObjectIndex.toNat ∨
                    1 ≤ s.itemGaveUp s.currentObjectIndex.toNat then
                  ({ s with
                      itemGaveUp :=
                        updN s.itemGaveUp s.currentObjectIndex.toNat
                          (s.itemGaveUp s.currentObjectIndex.toNat + 1)
                      waitingForRepeat := true
                      lessonState := .AWAIT_RESPONSE
                      pendingTranscription := none
                      pendingImage := none }, [Msg.answerGiven])
                else
                  ({ s with
                      itemGaveUp := updN s.itemGaveUp s.currentObjectIndex.toNat 1
                      itemHintsUsed :=
                        updN s.itemHintsUsed s.currentObjectIndex.toNat 1
                      lessonState := .AWAIT_RESPONSE
                      pendingTranscription := none
                      pendingImage := none }, [Msg.hintMsg])
              | .noObject =>
                ({ s with
                    itemSkipped := updB s.itemSkipped s.currentObjectIndex.toNat true
                    completedObjects :=
                      s.completedObjects ++ [(s.currentObjectIndex.toNat, none)]
                    lessonState := .FEEDBACK
                    pendingTranscription := none
                    pendingImage := none },
                 [Msg.objectSkipped s.currentObjectIndex.toNat])
              | .answerAttempt =>
                -- the judge call raised TypeError, so eval_result.correct is
                -- the default False; the finalize test is the source's
                -- `eval_result.correct or current_attempt >= max_attempts`
                if false = true ∨
                    3 ≤ s.itemAttempts s.currentObjectIndex.toNat + 1 then
                  ({ s with
                      completedObjects :=
                        (s.completedObjects.filter
                          (fun p => p.1 ≠ s.currentObjectIndex.toNat)) ++
                          [(s.currentObjectIndex.toNat, some false)]
                      itemAttempts :=
                        updN s.itemAttempts s.currentObjectIndex.toNat
                          (s.itemAttempts s.currentObjectIndex.toNat + 1)
                      waitingForRepeat := false
                      lessonState := .FEEDBACK
                      pendingTranscription := none
                      pendingImage := none },
                   [Msg.evaluationResult s.currentObjectIndex.toNat false
                      (s.itemAttempts s.currentObjectIndex.toNat + 1)])
                else
                  ({ s with
                      itemAttempts :=
                        updN s.itemAttempts s.currentObjectIndex.toNat
                          (s.itemAttempts s.currentObjectIndex.toNat + 1)
                      lessonState := .AWAIT_RESPONSE
                      pendingTranscription := none
                      pendingImage := none },
                   [Msg.evaluationResult s.currentObjectIndex.toNat false
                      (s.itemAttempts s.currentObjectIndex.toNat + 1)])

/-- `feedback_node` (lesson_graph.py lines 796-895).  With a plan and work
remaining it branches on whether the current object is finished; with no work
remaining it completes the lesson.  The `generate_summary` call at line 835
passes seven positional arguments (including `item_skipped`) to the
six-parameter `base.generate_summary`, raising `TypeError`, so the except
branch always builds `fallbackSummary`. -/
def feedbackNode (s : GState) : GState × List Msg :=
  match s.plan with
  | none => ({ s with lessonState := .COMPLETE }, [])
  | some plan =>
    if getNextObjectIndex plan s.completedObjects < 0 ∨
        plan.objects.length ≤ (completedIndices s.completedObjects).length then
      ({ s with lessonState := .COMPLETE, lessonCompleted := true },
       [Msg.lessonComplete (fallbackSummary s.completedObjects)])
    else
      if s.currentObjectIndex < 0 ∨
          s.currentObjectIndex.toNat ∉ completedIndices s.completedObjects then
        ({ s with lessonState := .AWAIT_RESPONSE }, [])
      else
        ({ s with lessonState := .PROMPT_USER }, [])

/-- `prompt_user_node` (lesson_graph.py lines 122-240).  Prompt text, TTS and
the per-object grammar person only affect message bodies and are not
modelled; the node selects the next object and moves to AWAIT_RESPONSE. -/
def promptUserNode (s : GState) : GState × List Msg :=
  match s.plan with
  | none => ({ s with lessonState := .AWAIT_RESPONSE }, [])
  | some plan =>
    if getNextObjectIndex plan s.completedObjects < 0 then
      ({ s with lessonState := .AWAIT_RESPONSE }, [])
    else if plan.objects.length ≤
        (getNextObjectIndex plan s.completedObjects).toNat then
      ({ s with lessonState := .AWAIT_RESPONSE }, [])
    else
      ({ s with
          currentObjectIndex := getNextObjectIndex plan s.completedObjects
          lessonState := .AWAIT_RESPONSE },
       [Msg.promptNext (getNextObjectIndex plan s.completedObjects).toNat])

/-- `invoke_lesson_graph(..., entry_node="evaluate")` (base.py lines
136-149): evaluate, then feedback, then prompt_user when feedback chose
PROMPT_USER. -/
def invokeGraphEvaluate (s : GState) (orc : TurnOracle) : GState × List Msg :=
  if (feedbackNode (evaluateNode s orc).1).1.lessonState = .PROMPT_USER then
    ((promptUserNode (feedbackNode (evaluateNode s orc).1).1).1,
     (evaluateNode s orc).2 ++ (feedbackNode (evaluateNode s orc).1).2 ++
       (promptUserNode (feedbackNode (evaluateNode s orc).1).1).2)
  else
    ((feedbackNode (evaluateNode s orc).1).1,
     (evaluateNode s orc).2 ++ (feedbackNode (evaluateNode s orc).1).2)

/-- `invoke_lesson_graph` without `entry_node="evaluate"` (base.py lines
150-158).  `create_lesson_graph(ws).compile()` never succeeds: in the graph
built at lesson_graph.py lines 898-963 the node `await_response` has no
outgoing edge (a dead-end) and the node `evaluate` has no incoming edge
(unreachable), and langgraph's graph validation, run by `compile()`, raises
for exactly these shapes.  The exception is caught by the surrounding
`try/except` (lines 155-158), which returns the input state with
`lesson_state = "FEEDBACK"` and an `_error` marker.  No node ever runs.
(The `_error` key itself is not a `LessonState` field and is read only by
handlers modelled separately.) -/
def invokeGraphFromEntry (s : GState) : GState × List Msg :=
  ({ s with lessonState := .FEEDBACK }, [])

/-- The per-connection `SessionState` class of base.py (lines 515-535).
`session_id`, `username`, `audio_mime` and `dialogue_history` only
parametrise storage and external calls and are not modelled.  Note that
`SessionState` has no skipped-flag field: `item_skipped` exists only inside
the graph dict and is dropped by `lesson_state_to_session_state`. -/
structure SessionS where
  audioChunks : List Str
  plan : Option Plan
  currentObjectIndex : Int
  completedObjects : List (Nat × Option Bool)
  itemAttempts : Nat → Nat
  itemHintsUsed : Nat → Nat
  itemGaveUp : Nat → Nat
  waitingForRepeat : Bool
  lessonSaved : Bool
  pendingTranscription : Option (Str × Str)
  pendingImage : Option (Str × Str)

/-- `session_state_to_lesson_state` (base.py lines 46-92).  The graph dict
gets no `item_skipped` key, so the node reads it as an empty dict; the
`lesson_state` key defaults to PROMPT_USER and is overwritten by callers;
`lesson_completed` is seeded from `lesson_saved`. -/
def sessionToLesson (s : SessionS) : GState :=
  { plan := s.plan
    currentObjectIndex := s.currentObjectIndex
    completedObjects := s.completedObjects
    itemAttempts := s.itemAttempts
    itemHintsUsed := s.itemHintsUsed
    itemGaveUp := s.itemGaveUp
    itemSkipped := fun _ => false
    waitingForRepeat := s.waitingForRepeat
    lessonState := .PROMPT_USER
    lessonCompleted := s.lessonSaved
    pendingTranscription := s.pendingTranscription
    pendingImage := s.pendingImage }

/-- `lesson_state_to_session_state` (base.py lines 95-113).  All graph dicts
built here carry the `lesson_completed` key, so `lesson_saved` becomes the
graph's flag. -/
def lessonToSession (g : GState) (s : SessionS) : SessionS :=
  { s with
    plan := g.plan
    currentObjectIndex := g.currentObjectIndex
    completedObjects := g.completedObjects
    itemAttempts := g.itemAttempts
    itemHintsUsed := g.itemHintsUsed
    itemGaveUp := g.itemGaveUp
    waitingForRepeat := g.waitingForRepeat
    lessonSaved := g.lessonCompleted
    pendingTranscription := g.pendingTranscription
    pendingImage := g.pendingImage }

/-- The correlated-turn processing shared by the `audio_end` and `image`
handlers (base.py lines 1131-1155 and 1283-1307): convert the session to a
graph state entering EVALUATE, run the evaluate chain, copy the result back,
and clear both pending slots.  `s2` is the session with the just-stored
pending event. -/
def evalTurn (s2 : SessionS) (orc : TurnOracle) : SessionS × List Msg :=
  ({ lessonToSession
      (invokeGraphEvaluate
        { sessionToLesson s2 with lessonState := .EVALUATE } orc).1 s2 with
      pendingTranscription := none
      pendingImage := none },
   (invokeGraphEvaluate
     { sessionToLesson s2 with lessonState := .EVALUATE } orc).2)

/-- The tail of the initial-image handler after a successful plan generation
(base.py lines 1209-1243): `s1` is the session with the fresh plan already
stored; the `plan` message is sent, then the graph is invoked from its
entry point.  That invocation always returns the `_error` state (see
`invokeGraphFromEntry`), and this branch performs no `_error` check — the
`except` fallback at lines 1244-1275 is dead because `invoke_lesson_graph`
already swallowed the exception — so `lesson_state_to_session_state` copies
the state back unchanged: no `prompt_next` is emitted and
`current_object_index` stays -1. -/
def planStart (s1 : SessionS) : SessionS × List Msg :=
  (lessonToSession
    (invokeGraphFromEntry
      { sessionToLesson s1 with lessonState := .PROMPT_USER }).1 s1,
   Msg.planMsg ::
     (invokeGraphFromEntry
       { sessionToLesson s1 with lessonState := .PROMPT_USER }).2)

/-- Inbound client events of `ws_stream`, with the results of the external
calls they trigger carried as oracle data: `asrResult` is the transcription
(`none` for an `HTTPException`), `planResult` the generated plan (`none` for
a failure), `dialogue` the entries loaded from session storage.  A missing
or empty (falsy) utterance id on an image is modelled as `none`.
`set_username`, `text` and unknown messages do not touch lesson state and
are omitted, as is the transport-level `session_id` bookkeeping. -/
inductive Event
  | controlReset
  | controlEnd (dialogue : List DialogueEntry)
  | audioChunk (data : Str)
  | audioEnd (utteranceId : Str) (asrResult : Option Str) (orc : TurnOracle)
  | imageEvt (utteranceId : Option Str) (dataUrl : Str)
      (planResult : Option Plan) (orc : TurnOracle)

/-- One iteration of the `ws_stream` receive loop (base.py lines 1022-1309)
for one event, returning the updated session state and the outbound
messages.  The evaluate-entry invocation is the manual node composition
(`evalTurn`), which is total, so the `"_error"` checks of the `audio_end`
and response-image handlers never fire; the prompt-entry invocation always
returns the `_error` state (`invokeGraphFromEntry`), and the plan-image
handler has no `"_error"` check at all, so it copies that state back
verbatim. -/
def wsStep (s : SessionS) (e : Event) : SessionS × List Msg :=
  match e with
  | .controlReset =>
    -- "reset_lesson" (lines 1080-1088): only the listed fields are reset.
    ({ s with
        plan := none
        currentObjectIndex := -1
        completedObjects := []
        pendingTranscription := none
        pendingImage := none
        lessonSaved := false }, [Msg.statusMsg okCode])
  | .controlEnd dialogue =>
    -- "end_session" (lines 1043-1079): with a plan, build and emit the
    -- summary (this call passes the six arguments base.generate_summary
    -- accepts, so it succeeds) and set lesson_saved; then always reset the
    -- plan, index, completions and pending pair.
    (match s.plan with
     | some plan =>
       let summary := generateSummary plan s.completedObjects dialogue
         s.itemAttempts s.itemHintsUsed s.itemGaveUp
       ({ s with
           lessonSaved := true
           plan := none
           currentObjectIndex := -1
           completedObjects := []
           pendingTranscription := none
           pendingImage := none },
        [Msg.lessonComplete summary, Msg.statusMsg okCode])
     | none =>
       ({ s with
           plan := none
           currentObjectIndex := -1
           completedObjects := []
           pendingTranscription := none
           pendingImage := none }, [Msg.statusMsg okCode]))
  | .audioChunk data =>
    -- "audio_chunk" (lines 1092-1104): buffered unconditionally; there is
    -- no lesson_saved check on this branch.
    ({ s with audioChunks := s.audioChunks ++ [data] }, [])
  | .audioEnd uid asr orc =>
    if s.lessonSaved then
      -- lines 1107-1112: warn and clear any buffered audio.
      ({ s with audioChunks := [] }, [Msg.statusMsg warnCode])
    else if s.audioChunks = [] then (s, [Msg.statusMsg warnCode])
    else
      -- the buffer is cleared before transcription (line 1118)
      match asr with
      | none => ({ s with audioChunks := [] }, [Msg.statusMsg errCode])
      | some text =>
        match s.pendingImage with
        | some pimg =>
          if pimg.1 = uid then
            ((evalTurn
                { s with
                  audioChunks := []
                  pendingTranscription := some (uid, text) } orc).1,
             Msg.asrFinal uid ::
               (evalTurn
                 { s with
                   audioChunks := []
                   pendingTranscription := some (uid, text) } orc).2)
          else
            ({ s with
                audioChunks := []
                pendingTranscription := some (uid, text) },
             [Msg.asrFinal uid])
        | none =>
          ({ s with
              audioChunks := []
              pendingTranscription := some (uid, text) },
           [Msg.asrFinal uid])
  | .imageEvt uid _dataUrl planRes orc =>
    if s.lessonSaved then (s, [Msg.statusMsg warnCode])
    else
      match uid, s.plan with
      | some u, some _ =>
        -- response image (lines 1279-1307): stored for pairing, evaluated
        -- when a transcription with the same utterance id is pending.
        match s.pendingTranscription with
        | some pt =>
          if pt.1 = u then
            evalTurn { s with pendingImage := some (u, _dataUrl) } orc
          else ({ s with pendingImage := some (u, _dataUrl) }, [])
        | none => ({ s with pendingImage := some (u, _dataUrl) }, [])
      | _, _ =>
        -- initial image (lines 1198-1278): generate a plan, reset index and
        -- completions (counters and pending slots are NOT touched), then
        -- attempt to invoke the graph from its entry point, which always
        -- fails validation (see planStart).
        match planRes with
        | none => (s, [Msg.statusMsg errCode])
        | some plan =>
          planStart
            { s with
              plan := some plan
              currentObjectIndex := -1
              completedObjects := [] }

/-- A fresh `SessionState` (base.py lines 518-535). -/
def initialSession : SessionS :=
  { audioChunks := []
    plan := none
    currentObjectIndex := -1
    completedObjects := []
    itemAttempts := fun _ => 0
    itemHintsUsed := fun _ => 0
    itemGaveUp := fun _ => 0
    waitingForRepeat := false
    lessonSaved := false
    pendingTranscription := none
    pendingImage := none }

/-- State after one event. -/
def stepS (s : SessionS) (e : Event) : SessionS := (wsStep s e).1

/-- State after a list of events, from a given start state. -/
def runFrom (s : SessionS) (es : List Event) : SessionS := es.foldl stepS s

/-- State after a list of events on a fresh connection. -/
def runEvents (es : List Event) : SessionS := runFrom initialSession es

/-- A session state the WebSocket loop can actually be in. -/
def Reachable (s : SessionS) : Prop := ∃ es, runEvents es = s

/-- The two structural session invariants used for the reachability proofs:
distinct item indices in `completed_objects`, and (while the lesson is live)
the current object is never already finalized. -/
def SInv (s : SessionS) : Prop :=
  (s.completedObjects.map Prod.fst).Nodup ∧
  (s.lessonSaved = false → 0 ≤ s.currentObjectIndex →
    s.currentObjectIndex.toNat ∉ s.completedObjects.map Prod.fst)

/-- The degenerate-run invariant: because the graph-entry invocation never
runs `prompt_user` (its `compile()` fails validation and the error state is
copied back unchecked), no item is ever selected, so the current index
stays -1, nothing is ever completed, and no attempt is ever recorded. -/
def DInv (s : SessionS) : Prop :=
  s.completedObjects = [] ∧ (∀ i, s.itemAttempts i = 0) ∧
  s.currentObjectIndex = -1

/-- Graph-level version of `SInv`. -/
def GInv (g : GState) : Prop :=
  (g.completedObjects.map Prod.fst).Nodup ∧
  (g.lessonCompleted = false → 0 ≤ g.currentObjectIndex →
    g.currentObjectIndex.toNat ∉ g.completedObjects.map Prod.fst)

/-- The transcript "I don't have that" from the spec's skip scenario. -/
def iDontHaveThat : Str := "I don".toList ++ [apoc] ++ "t have that".toList

/-- A two-object plan used by the concrete scenarios. -/
def planEx : Plan :=
  { sceneMessage := []
    objects :=
      [ { sourceName := "apple".toList, targetName := "manzana".toList,
          action := "name".toList },
        { sourceName := "pen".toList, targetName := "pluma".toList,
          action := "name".toList } ] }

/-- A one-object plan used by the concrete scenarios. -/
def planOne : Plan :=
  { sceneMessage := []
    objects :=
      [ { sourceName := "apple".toList, targetName := "manzana".toList,
          action := "name".toList } ] }

/-- An oracle with no LLM fallback available. -/
def orc0 : TurnOracle := { hasContext := false, llmReply := [] }

/-- The transcript "i dont know" (keyword fast-path give-up). -/
def dkTxt : Str := "i dont know".toList

/-- One full learner turn: buffered audio, end-of-audio with its ASR text,
then the correlated image. -/
def turnEvts (t txt : Str) : List Event :=
  [ .audioChunk "c".toList, .audioEnd t (some txt) orc0,
    .imageEvt (some t) "u".toList none orc0 ]

/-- The learner turns of the give-up scenario: "i dont know" twice, then an
arbitrary repeat transcript. -/
def demoGiveUpTurns : List Event :=
  turnEvts "t1".toList dkTxt ++
    turnEvts "t2".toList dkTxt ++
    turnEvts "t3".toList "banana".toList

/-- Scenario trace for the give-up path on a two-object plan. -/
def demoGiveUp : List Event :=
  Event.imageEvt none "u0".toList (some planEx) orc0 :: demoGiveUpTurns

/-- Session state with non-zero per-item counters, a live plan and the
repeat flag set; input for the reset scenario. -/
def s3ex : SessionS :=
  { initialSession with
    plan := some planEx
    currentObjectIndex := 0
    completedObjects := [(0, some false)]
    itemAttempts := updN (fun _ => 0) 0 2
    itemHintsUsed := updN (fun _ => 0) 0 1
    itemGaveUp := updN (fun _ => 0) 0 1
    waitingForRepeat := true }

/-- A session whose lesson has completed (`lesson_saved` set). -/
def s4ex : SessionS :=
  { initialSession with plan := some planEx, lessonSaved := true }

/-- Graph state in FEEDBACK with every plan object finalized; input for the
completion/summary scenario. -/
def g1ex : GState :=
  { plan := some planEx
    currentObjectIndex := 1
    completedObjects := [(0, some true), (1, some false)]
    itemAttempts := updN (updN (fun _ => 0) 0 1) 1 3
    itemHintsUsed := fun _ => 0
    itemGaveUp := fun _ => 0
    itemSkipped := fun _ => false
    waitingForRepeat := false
    lessonState := .FEEDBACK
    lessonCompleted := false
    pendingTranscription := none
    pendingImage := none }

/-- Graph state about to replay an answer attempt for an item that is
already finalized in `completed_objects`. -/
def g6ex : GState :=
  { plan := some planEx
    currentObjectIndex := 0
    completedObjects := [(0, some false), (1, some false)]
    itemAttempts := updN (fun _ => 0) 0 3
    itemHintsUsed := fun _ => 0
    itemGaveUp := fun _ => 0
    itemSkipped := fun _ => false
    waitingForRepeat := false
    lessonState := .EVALUATE
    lessonCompleted := false
    pendingTranscription := some ("t".toList, "banana".toList)
    pendingImage := some ("t".toList, "u".toList) }

/-- Graph state on which a second "don't know" arrives after a hint was
already used. -/
def g9ex : GState :=
  { plan := some planEx
    currentObjectIndex := 0
    completedObjects := []
    itemAttempts := fun _ => 0
    itemHintsUsed := updN (fun _ => 0) 0 1
    itemGaveUp := updN (fun _ => 0) 0 1
    itemSkipped := fun _ => false
    waitingForRepeat := false
    lessonState := .EVALUATE
    lessonCompleted := false
    pendingTranscription := some ("t".toList, dkTxt)
    pendingImage := some ("t".toList, "u".toList) }

/-- Graph state after the answer was revealed (repeat flag set), with the
next correlated turn pending. -/
def g9b : GState :=
  { g9ex with
    waitingForRepeat := true
    itemGaveUp := updN (fun _ => 0) 0 2
    pendingTranscription := some ("t2".toList, "whatever".toList)
    pendingImage := some ("t2".toList, "u".toList) }

/-- Trace for the correlation scenario: plan, image for token T1, then a
transcript for token T2. -/
def demoCorr : List Event :=
  [ Event.imageEvt none "u0".toList (some planEx) orc0,
    Event.imageEvt (some "T1".toList) "img1".toList none orc0,
    Event.audioChunk "c".toList,
    Event.audioEnd "T2".toList (some "manzana".toList) orc0,
    Event.audioChunk "c".toList ]

lemma mem_map_fst_append_pair {l : List (Nat × Option Bool)} {idx j : Nat}
    {o : Option Bool} :
    j ∈ ((l ++ [(idx, o)]).map Prod.fst) ↔ j ∈ l.map Prod.fst ∨ j = idx := by
  simp

lemma nodup_map_fst_append_pair {l : List (Nat × Option Bool)} {idx : Nat}
    {o : Option Bool} (hnd : (l.map Prod.fst).Nodup)
    (hnm : idx ∉ l.map Prod.fst) :
    ((l ++ [(idx, o)]).map Prod.fst).Nodup := by
  rw [List.map_append]
  refine List.Nodup.append hnd (by simp) ?_
  intro a ha hb
  simp at hb
  exact hnm (hb ▸ ha)

lemma map_fst_filter_subset {l : List (Nat × Option Bool)} {idx j : Nat}
    (h : j ∈ (l.filter (fun p => p.1 ≠ idx)).map Prod.fst) :
    j ∈ l.map Prod.fst := by
  rcases List.mem_map.mp h with ⟨a, ha, rfl⟩
  exact List.mem_map.mpr ⟨a, (List.mem_filter.mp ha).1, rfl⟩

lemma not_mem_map_fst_filter (l : List (Nat × Option Bool)) (idx : Nat) :
    idx ∉ (l.filter (fun p => p.1 ≠ idx)).map Prod.fst := by
  intro h
  rcases List.mem_map.mp h with ⟨a, ha, hfst⟩
  have := (List.mem_filter.mp ha).2
  simp at this
  exact this hfst

lemma nodup_map_fst_filter {l : List (Nat × Option Bool)} {idx : Nat}
    (hnd : (l.map Prod.fst).Nodup) :
    ((l.filter (fun p => p.1 ≠ idx)).map Prod.fst).Nodup :=
  ((List.filter_sublist l).map Prod.fst).nodup hnd

lemma mem_map_fst_filter_append {l : List (Nat × Option Bool)} {idx j : Nat}
    {o : Option Bool} :
    j ∈ (((l.filter (fun p => p.1 ≠ idx)) ++ [(idx, o)]).map Prod.fst) ↔
      j ∈ (l.filter (fun p => p.1 ≠ idx)).map Prod.fst ∨ j = idx := by
  simp

lemma getNextObjectIndex_spec (plan : Plan) (l : List (Nat × Option Bool)) :
    getNextObjectIndex plan l = -1 ∨
    (0 ≤ getNextObjectIndex plan l ∧
      (getNextObjectIndex plan l).toNat < plan.objects.length ∧
      (getNextObjectIndex plan l).toNat ∉ l.map Prod.fst) := by
  unfold getNextObjectIndex
  rcases hf : (List.range plan.objects.length).find?
      (fun i => decide (i ∉ l.map Prod.fst)) with _ | i
  · left
    rfl
  · right
    have hpred := List.find?_some hf
    have hmem := List.mem_of_find?_eq_some hf
    rw [decide_eq_true_eq] at hpred
    have hrange := List.mem_range.mp hmem
    refine ⟨Int.ofNat_nonneg i, ?_, ?_⟩
    · simpa using hrange
    · simpa using hpred

lemma evaluateNode_shape (g : GState) (orc : TurnOracle) :
    (evaluateNode g orc).1.plan = g.plan ∧
    (evaluateNode g orc).1.currentObjectIndex = g.currentObjectIndex ∧
    (evaluateNode g orc).1.lessonCompleted = g.lessonCompleted ∧
    (((evaluateNode g orc).1.completedObjects = g.completedObjects ∧
       (evaluateNode g orc).1.itemAttempts = g.itemAttempts) ∨
     (∃ o : Option Bool, 0 ≤ g.currentObjectIndex ∧
       (evaluateNode g orc).1.completedObjects =
         g.completedObjects ++ [(g.currentObjectIndex.toNat, o)] ∧
       (evaluateNode g orc).1.itemAttempts = g.itemAttempts) ∨
     (0 ≤ g.currentObjectIndex ∧
       3 ≤ g.itemAttempts g.currentObjectIndex.toNat + 1 ∧
       (evaluateNode g orc).1.completedObjects =
         (g.completedObjects.filter
           (fun p => p.1 ≠ g.currentObjectIndex.toNat)) ++
           [(g.currentObjectIndex.toNat, some false)] ∧
       (evaluateNode g orc).1.itemAttempts =
         updN g.itemAttempts g.currentObjectIndex.toNat
           (g.itemAttempts g.currentObjectIndex.toNat + 1)) ∨
     (0 ≤ g.currentObjectIndex ∧
       g.itemAttempts g.currentObjectIndex.toNat + 1 < 3 ∧
       (evaluateNode g orc).1.completedObjects = g.completedObjects ∧
       (evaluateNode g orc).1.itemAttempts =
         updN g.itemAttempts g.currentObjectIndex.toNat
           (g.itemAttempts g.currentObjectIndex.toNat + 1))) := by
  unfold evaluateNode
  split
  · exact ⟨rfl, rfl, rfl, Or.inl ⟨rfl, rfl⟩⟩
  · split
    · exact ⟨rfl, rfl, rfl, Or.inl ⟨rfl, rfl⟩⟩
    · split
      · exact ⟨rfl, rfl, rfl, Or.inl ⟨rfl, rfl⟩⟩
      · split
        · exact ⟨rfl, rfl, rfl, Or.inl ⟨rfl, rfl⟩⟩
        · split
          · exact ⟨rfl, rfl, rfl, Or.inl ⟨rfl, rfl⟩⟩
          · split
            · exact ⟨rfl, rfl, rfl,
                Or.inr (Or.inl ⟨some false, by omega, rfl, rfl⟩)⟩
            · split
              · split
                · exact ⟨rfl, rfl, rfl, Or.inl ⟨rfl, rfl⟩⟩
                · exact ⟨rfl, rfl, rfl, Or.inl ⟨rfl, rfl⟩⟩
              · split
                · exact ⟨rfl, rfl, rfl, Or.inl ⟨rfl, rfl⟩⟩
                · exact ⟨rfl, rfl, rfl, Or.inl ⟨rfl, rfl⟩⟩
              · exact ⟨rfl, rfl, rfl,
                  Or.inr (Or.inl ⟨none, by omega, rfl, rfl⟩)⟩
              · split
                · rename_i hor
                  exact ⟨rfl, rfl, rfl, Or.inr (Or.inr (Or.inl
                    ⟨by omega, hor.resolve_left (by simp), rfl, rfl⟩))⟩
                · rename_i hor
                  have h3 : g.itemAttempts g.currentObjectIndex.toNat + 1 < 3 := by
                    rcases Nat.lt_or_ge
                        (g.itemAttempts g.currentObjectIndex.toNat + 1) 3 with
                      h | h
                    · exact h
                    · exact absurd (Or.inr h) hor
                  exact ⟨rfl, rfl, rfl,
                    Or.inr (Or.inr (Or.inr ⟨by omega, h3, rfl, rfl⟩))⟩

lemma mem_map_fst_filter_of_ne {l : List (Nat × Option Bool)} {idx j : Nat}
    (hj : j ∈ l.map Prod.fst) (hne : j ≠ idx) :
    j ∈ (l.filter (fun p => p.1 ≠ idx)).map Prod.fst := by
  rcases List.mem_map.mp hj with ⟨a, ha, rfl⟩
  exact List.mem_map.mpr ⟨a, List.mem_filter.mpr ⟨ha, by simpa using hne⟩, rfl⟩

lemma evaluateNode_plan_none (g : GState) (orc : TurnOracle)
    (h : g.plan = none) :
    (evaluateNode g orc).1 = { g with lessonState := .FEEDBACK } := by
  unfold evaluateNode
  rw [h]

lemma feedbackNode_cases (g : GState) :
    (feedbackNode g).1.plan = g.plan ∧
    (feedbackNode g).1.currentObjectIndex = g.currentObjectIndex ∧
    (feedbackNode g).1.completedObjects = g.completedObjects ∧
    (feedbackNode g).1.itemAttempts = g.itemAttempts ∧
    (((feedbackNode g).1.lessonState = .COMPLETE ∧
        (feedbackNode g).1.lessonCompleted = true) ∨
     ((feedbackNode g).1.lessonCompleted = g.lessonCompleted ∧
      (((feedbackNode g).1.lessonState = .COMPLETE ∧ g.plan = none) ∨
       ((feedbackNode g).1.lessonState = .AWAIT_RESPONSE ∧
         (g.currentObjectIndex < 0 ∨
           g.currentObjectIndex.toNat ∉ g.completedObjects.map Prod.fst)) ∨
       ((feedbackNode g).1.lessonState = .PROMPT_USER ∧
         ∃ plan, g.plan = some plan ∧
           0 ≤ getNextObjectIndex plan g.completedObjects)))) := by
  unfold feedbackNode
  split
  · rename_i hplan
    exact ⟨by rw [hplan], rfl, rfl, rfl, Or.inr ⟨rfl, Or.inl ⟨rfl, hplan⟩⟩⟩
  · rename_i plan hplan
    split
    · exact ⟨by rw [hplan], rfl, rfl, rfl, Or.inl ⟨rfl, rfl⟩⟩
    · rename_i hcond
      have hnn : 0 ≤ getNextObjectIndex plan g.completedObjects := by
        rcases not_or.mp hcond with ⟨h1, _⟩
        omega
      split
      · rename_i hcur
        refine ⟨by rw [hplan], rfl, rfl, rfl, Or.inr ⟨rfl, Or.inr (Or.inl
          ⟨rfl, ?_⟩)⟩⟩
        rcases hcur with h | h
        · exact Or.inl h
        · refine Or.inr (fun hm => h ?_)
          unfold completedIndices
          exact List.mem_dedup.mpr hm
      · exact ⟨by rw [hplan], rfl, rfl, rfl, Or.inr ⟨rfl, Or.inr (Or.inr
          ⟨rfl, plan, hplan, hnn⟩)⟩⟩

lemma promptUserNode_shape (g : GState) :
    (promptUserNode g).1.plan = g.plan ∧
    (promptUserNode g).1.completedObjects = g.completedObjects ∧
    (promptUserNode g).1.itemAttempts = g.itemAttempts ∧
    (promptUserNode g).1.lessonCompleted = g.lessonCompleted ∧
    ((promptUserNode g).1.currentObjectIndex = g.currentObjectIndex ∨
      (0 ≤ (promptUserNode g).1.currentObjectIndex ∧
        (promptUserNode g).1.currentObjectIndex.toNat ∉
          g.completedObjects.map Prod.fst)) := by
  unfold promptUserNode
  split
  · exact ⟨by rename_i h; rw [h], rfl, rfl, rfl, Or.inl rfl⟩
  · rename_i plan hplan
    split
    · exact ⟨by rw [hplan], rfl, rfl, rfl, Or.inl rfl⟩
    · split
      · exact ⟨by rw [hplan], rfl, rfl, rfl, Or.inl rfl⟩
      · refine ⟨by rw [hplan], rfl, rfl, rfl, Or.inr ⟨?_, ?_⟩⟩
        · show 0 ≤ getNextObjectIndex plan g.completedObjects
          omega
        · show (getNextObjectIndex plan g.completedObjects).toNat ∉
            g.completedObjects.map Prod.fst
          rcases getNextObjectIndex_spec plan g.completedObjects with
            h | ⟨_, _, h⟩
          · omega
          · exact h

lemma promptUserNode_move (g : GState) (plan : Plan)
    (hp : g.plan = some plan)
    (hnn : 0 ≤ getNextObjectIndex plan g.completedObjects) :
    (promptUserNode g).1.currentObjectIndex =
      getNextObjectIndex plan g.completedObjects := by
  obtain ⟨hlt, hlen, _⟩ :
      0 ≤ getNextObjectIndex plan g.completedObjects ∧
      (getNextObjectIndex plan g.completedObjects).toNat <
        plan.objects.length ∧
      (getNextObjectIndex plan g.completedObjects).toNat ∉
        g.completedObjects.map Prod.fst := by
    rcases getNextObjectIndex_spec plan g.completedObjects with h | h
    · omega
    · exact h
  simp only [promptUserNode, hp]
  rw [if_neg (by omega), if_neg (by omega)]

lemma invokeGraphEvaluate_GInv (g : GState) (orc : TurnOracle)
    (hG : GInv g) (hlc : g.lessonCompleted = false) :
    GInv (invokeGraphEvaluate g orc).1 ∧
    (invokeGraphEvaluate g orc).1.plan = g.plan := by
  obtain ⟨e_plan, e_cur, e_lc, e_shape⟩ := evaluateNode_shape g orc
  obtain ⟨f_plan, f_cur, f_comp, f_att, f_cases⟩ :=
    feedbackNode_cases (evaluateNode g orc).1
  have hnd1 :
      (((evaluateNode g orc).1.completedObjects).map Prod.fst).Nodup := by
    rcases e_shape with ⟨hc, _⟩ | ⟨o, hge, hc, _⟩ | ⟨hge, _, hc, _⟩ |
      ⟨_, _, hc, _⟩
    · rw [hc]; exact hG.1
    · rw [hc]
      exact nodup_map_fst_append_pair hG.1 (hG.2 hlc hge)
    · rw [hc]
      exact nodup_map_fst_append_pair (nodup_map_fst_filter hG.1)
        (not_mem_map_fst_filter _ _)
    · rw [hc]; exact hG.1
  unfold invokeGraphEvaluate
  split
  · rename_i hps
    show GInv (promptUserNode (feedbackNode (evaluateNode g orc).1).1).1 ∧
      (promptUserNode (feedbackNode (evaluateNode g orc).1).1).1.plan = g.plan
    rcases f_cases with ⟨hst, _⟩ | ⟨hlceq, hsub⟩
    · rw [hst] at hps; exact absurd hps (by decide)
    · rcases hsub with ⟨hst, _⟩ | ⟨hst, _⟩ | ⟨hst, plan1, hplan1, hnn⟩
      · rw [hst] at hps; exact absurd hps (by decide)
      · rw [hst] at hps; exact absurd hps (by decide)
      · obtain ⟨p_plan, p_comp, p_att, p_lc, _⟩ :=
          promptUserNode_shape (feedbackNode (evaluateNode g orc).1).1
        have hmove :=
          promptUserNode_move (feedbackNode (evaluateNode g orc).1).1 plan1
            (by rw [f_plan]; exact hplan1) (by rw [f_comp]; exact hnn)
        refine ⟨⟨?_, ?_⟩, ?_⟩
        · rw [p_comp, f_comp]; exact hnd1
        · intro _ _
          rw [p_comp, f_comp, hmove, f_comp]
          rcases getNextObjectIndex_spec plan1
              ((evaluateNode g orc).1.completedObjects) with h | ⟨_, _, hnm⟩
          · omega
          · exact hnm
        · rw [p_plan, f_plan, e_plan]
  · rename_i hps
    show GInv (feedbackNode (evaluateNode g orc).1).1 ∧
      (feedbackNode (evaluateNode g orc).1).1.plan = g.plan
    refine ⟨⟨?_, ?_⟩, ?_⟩
    · rw [f_comp]; exact hnd1
    · intro hlc2 hge2
      rw [f_comp]
      rcases f_cases with ⟨hst, hlcT⟩ | ⟨hlceq, hsub⟩
      · rw [hlcT] at hlc2; exact absurd hlc2 (by decide)
      · rcases hsub with ⟨hst, hplnone⟩ | ⟨hst, hdisj⟩ | ⟨hst, _⟩
        · have hgp : g.plan = none := by rw [← e_plan]; exact hplnone
          have hg1 := evaluateNode_plan_none g orc hgp
          rw [f_cur, hg1] at hge2 ⊢
          exact hG.2 hlc hge2
        · rw [f_cur]
          rcases hdisj with h | h
          · rw [f_cur] at hge2; omega
          · exact h
        · exact absurd hst hps
    · rw [f_plan, e_plan]

lemma evaluateNode_guard_neg (g : GState) (orc : TurnOracle)
    (h : g.currentObjectIndex < 0) :
    (evaluateNode g orc).1 = { g with lessonState := .FEEDBACK } := by
  unfold evaluateNode
  split
  · rfl
  · rw [if_pos h]

lemma feedbackNode_no_prompt_of_neg (g : GState)
    (h : g.currentObjectIndex < 0) :
    ¬ (feedbackNode g).1.lessonState = LState.PROMPT_USER := by
  intro hc
  unfold feedbackNode at hc
  split at hc
  · exact LState.noConfusion hc
  · split at hc
    · exact LState.noConfusion hc
    · rw [if_pos (Or.inl h)] at hc
      exact LState.noConfusion hc

lemma invokeGraphEvaluate_neg (g : GState) (orc : TurnOracle)
    (h : g.currentObjectIndex < 0) :
    (invokeGraphEvaluate g orc).1.completedObjects = g.completedObjects ∧
    (invokeGraphEvaluate g orc).1.itemAttempts = g.itemAttempts ∧
    (invokeGraphEvaluate g orc).1.currentObjectIndex =
      g.currentObjectIndex := by
  have he := evaluateNode_guard_neg g orc h
  have hnp : ¬ (feedbackNode (evaluateNode g orc).1).1.lessonState =
      LState.PROMPT_USER := by
    rw [he]
    exact feedbackNode_no_prompt_of_neg _ h
  obtain ⟨f_plan, f_cur, f_comp, f_att, f_cases⟩ :=
    feedbackNode_cases (evaluateNode g orc).1
  unfold invokeGraphEvaluate
  rw [if_neg hnp]
  refine ⟨?_, ?_, ?_⟩
  · rw [f_comp, he]
  · rw [f_att, he]
  · rw [f_cur, he]

lemma evalTurn_SInv (s2 : SessionS) (orc : TurnOracle)
    (hnd : (s2.completedObjects.map Prod.fst).Nodup)
    (hcur : 0 ≤ s2.currentObjectIndex →
      s2.currentObjectIndex.toNat ∉ s2.completedObjects.map Prod.fst)
    (hls : s2.lessonSaved = false) :
    SInv (evalTurn s2 orc).1 ∧ (evalTurn s2 orc).1.plan = s2.plan := by
  have hG : GInv { sessionToLesson s2 with lessonState := .EVALUATE } :=
    ⟨hnd, fun _ h2 => hcur h2⟩
  obtain ⟨hGr, hplanr⟩ := invokeGraphEvaluate_GInv
    { sessionToLesson s2 with lessonState := .EVALUATE } orc hG hls
  exact ⟨⟨hGr.1, fun h1 h2 => hGr.2 h1 h2⟩, hplanr⟩

lemma evalTurn_DInv (s2 : SessionS) (orc : TurnOracle) (h : DInv s2) :
    DInv (evalTurn s2 orc).1 := by
  have hneg : ({ sessionToLesson s2 with
      lessonState := LState.EVALUATE } : GState).currentObjectIndex < 0 := by
    show s2.currentObjectIndex < 0
    rw [h.2.2]
    decide
  have hni := invokeGraphEvaluate_neg
    { sessionToLesson s2 with lessonState := LState.EVALUATE } orc hneg
  refine ⟨?_, fun i => ?_, ?_⟩
  · show (invokeGraphEvaluate { sessionToLesson s2 with
      lessonState := LState.EVALUATE } orc).1.completedObjects = []
    rw [hni.1]
    exact h.1
  · show (invokeGraphEvaluate { sessionToLesson s2 with
      lessonState := LState.EVALUATE } orc).1.itemAttempts i = 0
    rw [hni.2.1]
    exact h.2.1 i
  · show (invokeGraphEvaluate { sessionToLesson s2 with
      lessonState := LState.EVALUATE } orc).1.currentObjectIndex = -1
    rw [hni.2.2]
    exact h.2.2

lemma planStart_SInv (s1 : SessionS) (hcomp : s1.completedObjects = []) :
    SInv (planStart s1).1 := by
  have hc : (planStart s1).1.completedObjects = [] := hcomp
  exact ⟨by rw [hc]; simp, fun _ _ => by rw [hc]; simp⟩

lemma bool_not_true {b : Bool} (h : ¬ b = true) : b = false := by
  cases b
  · rfl
  · exact absurd rfl h

lemma wsStep_SInv (s : SessionS) (e : Event) (h : SInv s) :
    SInv (wsStep s e).1 := by
  cases e with
  | controlReset =>
    exact ⟨List.nodup_nil,
      fun _ h2 => absurd (show (0 : Int) ≤ -1 from h2) (by decide)⟩
  | controlEnd dialogue =>
    show SInv (wsStep s (.controlEnd dialogue)).1
    simp only [wsStep]
    rcases s.plan with _ | pl
    · exact ⟨List.nodup_nil,
        fun _ h2 => absurd (show (0 : Int) ≤ -1 from h2) (by decide)⟩
    · exact ⟨List.nodup_nil,
        fun _ h2 => absurd (show (0 : Int) ≤ -1 from h2) (by decide)⟩
  | audioChunk data => exact ⟨h.1, h.2⟩
  | audioEnd uid asr orc =>
    show SInv (wsStep s (.audioEnd uid asr orc)).1
    simp only [wsStep]
    split
    · exact ⟨h.1, h.2⟩
    · split
      · exact h
      · split
        · exact ⟨h.1, h.2⟩
        · rename_i hnsaved _ _ text
          have hls : s.lessonSaved = false := bool_not_true hnsaved
          split
          · split
            · exact (evalTurn_SInv
                { s with
                  audioChunks := []
                  pendingTranscription := some (uid, text) } orc h.1
                (fun h2 => h.2 hls h2) hls).1
            · exact ⟨h.1, h.2⟩
          · exact ⟨h.1, h.2⟩
  | imageEvt uid dataUrl planRes orc =>
    show SInv (wsStep s (.imageEvt uid dataUrl planRes orc)).1
    simp only [wsStep]
    split
    · exact h
    · rename_i hnsaved
      have hls : s.lessonSaved = false := bool_not_true hnsaved
      cases uid with
      | none =>
        cases planRes with
        | none => exact h
        | some p => exact planStart_SInv _ rfl
      | some u =>
        rcases hsp : s.plan with _ | pl
        · cases planRes with
          | none => exact h
          | some p => exact planStart_SInv _ rfl
        · dsimp only
          rw [← hsp]
          split
          · split
            · exact (evalTurn_SInv
                { s with pendingImage := some (u, dataUrl) } orc h.1
                (fun h2 => h.2 hls h2) hls).1
            · exact ⟨h.1, h.2⟩
          · exact ⟨h.1, h.2⟩

lemma wsStep_DInv (s : SessionS) (e : Event) (h : DInv s) :
    DInv (wsStep s e).1 := by
  cases e with
  | controlReset => exact ⟨rfl, h.2.1, rfl⟩
  | controlEnd dialogue =>
    show DInv (wsStep s (.controlEnd dialogue)).1
    simp only [wsStep]
    rcases s.plan with _ | pl
    · exact ⟨rfl, h.2.1, rfl⟩
    · exact ⟨rfl, h.2.1, rfl⟩
  | audioChunk data => exact ⟨h.1, h.2.1, h.2.2⟩
  | audioEnd uid asr orc =>
    show DInv (wsStep s (.audioEnd uid asr orc)).1
    simp only [wsStep]
    split
    · exact ⟨h.1, h.2.1, h.2.2⟩
    · split
      · exact h
      · split
        · exact ⟨h.1, h.2.1, h.2.2⟩
        · rename_i text
          split
          · split
            · exact evalTurn_DInv
                { s with
                  audioChunks := []
                  pendingTranscription := some (uid, text) } orc
                ⟨h.1, h.2.1, h.2.2⟩
            · exact ⟨h.1, h.2.1, h.2.2⟩
          · exact ⟨h.1, h.2.1, h.2.2⟩
  | imageEvt uid dataUrl planRes orc =>
    show DInv (wsStep s (.imageEvt uid dataUrl planRes orc)).1
    simp only [wsStep]
    split
    · exact h
    · cases uid with
      | none =>
        cases planRes with
        | none => exact h
        | some p => exact ⟨rfl, h.2.1, rfl⟩
      | some u =>
        rcases hsp : s.plan with _ | pl
        · cases planRes with
          | none => exact h
          | some p => exact ⟨rfl, h.2.1, rfl⟩
        · dsimp only
          rw [← hsp]
          split
          · split
            · exact evalTurn_DInv
                { s with pendingImage := some (u, dataUrl) } orc
                ⟨h.1, h.2.1, h.2.2⟩
            · exact ⟨h.1, h.2.1, h.2.2⟩
          · exact ⟨h.1, h.2.1, h.2.2⟩

lemma runFrom_SInv (es : List Event) (s : SessionS) (h : SInv s) :
    SInv (runFrom s es) := by
  induction es generalizing s with
  | nil => exact h
  | cons e es ih => exact ih (stepS s e) (wsStep_SInv s e h)

lemma runFrom_DInv (es : List Event) (s : SessionS) (h : DInv s) :
    DInv (runFrom s es) := by
  induction es generalizing s with
  | nil => exact h
  | cons e es ih => exact ih (stepS s e) (wsStep_DInv s e h)

/-- C10: in the local keyword fast-path of `detect_user_intent`, the hint
keywords are tested before the don't-know keywords, so any transcript whose
lowercased, stripped text contains both a hint keyword and a don't-know
keyword is classified `hint_request`, independently of the LLM fallback
(no external call influences the result). -/
theorem c10_hint_keywords_win (t : Str) (u : Bool) (r : Str)
    (h1 : hintKeywords.any
      (fun k => strContains (pyStrip (pyLower t)) k) = true)
    (h2 : dontKnowKeywords.any
      (fun k => strContains (pyStrip (pyLower t)) k) = true) :
    detectUserIntent t u r = .hintRequest := by
  have ht : ¬ t = [] := by
    intro hemp
    subst hemp
    exact absurd h1 (by decide)
  unfold detectUserIntent
  rw [if_neg ht]
  simp only [h1, if_true]

/-- Witness for C10 at the transcript "help, i give up" (contains the hint
keyword "help" and the don't-know keywords "give up" and "i give up"),
with an adversarial LLM reply that is never consulted. -/
theorem c10_hint_keywords_win_witness :
    hintKeywords.any (fun k =>
      strContains (pyStrip (pyLower "help, i give up".toList)) k) = true ∧
    dontKnowKeywords.any (fun k =>
      strContains (pyStrip (pyLower "help, i give up".toList)) k) = true ∧
    detectUserIntent "help, i give up".toList true "dont_know".toList =
      .hintRequest :=
  ⟨by decide, by decide,
    c10_hint_keywords_win "help, i give up".toList true "dont_know".toList
      (by decide) (by decide)⟩

/-- C2: the intent classifier can never produce `no_object` — the keyword
fast-path only yields `hint_request`/`dont_know`, and the LLM fallback
whitelists only the three labels `hint_request`, `dont_know`,
`answer_attempt` — and in particular the transcript "I don't have that"
(with no LLM context available) is classified `answer_attempt`, so the
`no_object` skip branch of `evaluate_node` is unreachable. -/
theorem c2_classifier_never_no_object :
    (∀ (t : Str) (u : Bool) (r : Str),
      detectUserIntent t u r ≠ .noObject) ∧
    detectUserIntent iDontHaveThat false [] = .answerAttempt := by
  constructor
  · intro t u r
    unfold detectUserIntent llmIntentFilter
    dsimp only
    repeat' split
    all_goals decide
  · decide

/-- Witness for C2 at the transcript "I don't have that", also when an
adversarial LLM reply "no_object" is available. -/
theorem c2_classifier_never_no_object_witness :
    detectUserIntent iDontHaveThat true "no_object".toList ≠
      Intent.noObject ∧
    detectUserIntent iDontHaveThat false [] = .answerAttempt :=
  ⟨c2_classifier_never_no_object.1 iDontHaveThat true "no_object".toList,
    c2_classifier_never_no_object.2⟩

/-- C3 counterexample: a "reset" control event leaves the per-item attempt,
hint and give-up counters and the `waiting_for_repeat` flag untouched
(`reset_lesson` only clears the plan, the index, the completions, the
pending pair and `lesson_saved`), so the claim that it clears all per-item
state fails at this concrete session. -/
theorem c3_reset_keeps_counters :
    ((wsStep s3ex .controlReset).1.itemAttempts 0 = 2 ∧
     (wsStep s3ex .controlReset).1.itemHintsUsed 0 = 1 ∧
     (wsStep s3ex .controlReset).1.itemGaveUp 0 = 1 ∧
     (wsStep s3ex .controlReset).1.waitingForRepeat = true) ∧
    ¬ ((wsStep s3ex .controlReset).1.itemAttempts 0 = 0 ∧
       (wsStep s3ex .controlReset).1.itemHintsUsed 0 = 0 ∧
       (wsStep s3ex .controlReset).1.itemGaveUp 0 = 0 ∧
       (wsStep s3ex .controlReset).1.waitingForRepeat = false) := by
  decide

/-- C3 amended: a "reset" control event clears the plan, the current item
index, the completed outcomes, the pending correlation pair and the
lesson-completed flag, and answers with an ok status on the open
connection — but it leaves the attempt counts, hints used, give-up counts,
the repeat flag and the audio buffer unchanged. -/
theorem c3_reset_amended (s : SessionS) :
    (wsStep s .controlReset).1.plan = none ∧
    (wsStep s .controlReset).1.currentObjectIndex = -1 ∧
    (wsStep s .controlReset).1.completedObjects = [] ∧
    (wsStep s .controlReset).1.pendingTranscription = none ∧
    (wsStep s .controlReset).1.pendingImage = none ∧
    (wsStep s .controlReset).1.lessonSaved = false ∧
    (wsStep s .controlReset).1.itemAttempts = s.itemAttempts ∧
    (wsStep s .controlReset).1.itemHintsUsed = s.itemHintsUsed ∧
    (wsStep s .controlReset).1.itemGaveUp = s.itemGaveUp ∧
    (wsStep s .controlReset).1.waitingForRepeat = s.waitingForRepeat ∧
    (wsStep s .controlReset).1.audioChunks = s.audioChunks ∧
    (wsStep s .controlReset).2 = [Msg.statusMsg okCode] :=
  ⟨rfl, rfl, rfl, rfl, rfl, rfl, rfl, rfl, rfl, rfl, rfl, rfl⟩

/-- Witness for C3 amended at the concrete session with live counters. -/
theorem c3_reset_amended_witness :
    (wsStep s3ex .controlReset).1.plan = none ∧
    (wsStep s3ex .controlReset).1.itemAttempts = s3ex.itemAttempts :=
  ⟨(c3_reset_amended s3ex).1, (c3_reset_amended s3ex).2.2.2.2.2.2.1⟩

/-- C4 counterexample: after the lesson is complete, an `audio_chunk` event
is still accepted — the chunk is buffered (the state changes) and no warning
is emitted — because the `audio_chunk` handler has no `lesson_saved`
check. -/
theorem c4_audio_chunk_accepted_after_completion :
    s4ex.lessonSaved = true ∧
    (wsStep s4ex (.audioChunk "c".toList)).1.audioChunks = ["c".toList] ∧
    (wsStep s4ex (.audioChunk "c".toList)).1.audioChunks ≠
      s4ex.audioChunks ∧
    (wsStep s4ex (.audioChunk "c".toList)).2 = [] := by
  decide

/-- C4 amended: after `lesson_completed`, `audio_end` and `image` events are
rejected with a warning status — `image` leaves the session unchanged, while
`audio_end` additionally clears any buffered audio — but `audio_chunk`
events are not rejected: the chunk is appended to the buffer with no
warning. -/
theorem c4_amended (s : SessionS) (h : s.lessonSaved = true) :
    (∀ uid asr orc,
      (wsStep s (.audioEnd uid asr orc)).1 = { s with audioChunks := [] } ∧
      (wsStep s (.audioEnd uid asr orc)).2 = [Msg.statusMsg warnCode]) ∧
    (∀ uid du pr orc,
      (wsStep s (.imageEvt uid du pr orc)).1 = s ∧
      (wsStep s (.imageEvt uid du pr orc)).2 = [Msg.statusMsg warnCode]) ∧
    (∀ d,
      (wsStep s (.audioChunk d)).1 =
        { s with audioChunks := s.audioChunks ++ [d] } ∧
      (wsStep s (.audioChunk d)).2 = []) := by
  refine ⟨fun uid asr orc => ?_, fun uid du pr orc => ?_,
    fun d => ⟨rfl, rfl⟩⟩
  · constructor <;> simp [wsStep, h]
  · constructor <;> simp [wsStep, h]

/-- Witness for C4 amended at a completed concrete session. -/
theorem c4_amended_witness :
    s4ex.lessonSaved = true ∧
    (wsStep s4ex (.audioEnd "t".toList none orc0)).1 =
      { s4ex with audioChunks := [] } ∧
    (wsStep s4ex (.imageEvt none "d".toList none orc0)).1 = s4ex ∧
    (wsStep s4ex (.imageEvt none "d".toList none orc0)).2 =
      [Msg.statusMsg warnCode] :=
  ⟨rfl, (c4_amended s4ex rfl).1 "t".toList none orc0 |>.1,
    ((c4_amended s4ex rfl).2.1 none "d".toList none orc0).1,
    ((c4_amended s4ex rfl).2.1 none "d".toList none orc0).2⟩

/-- C1: evaluated at a two-object plan with both objects finalized, the
feedback step does set `lesson_state = COMPLETE` and
`lesson_completed = true`, but the summary it emits carries zero item
records instead of one per plan object: `feedback_node` passes seven
positional arguments (including `item_skipped`) to the six-parameter
`base.generate_summary`, the call raises `TypeError`, and the except branch
substitutes the minimal summary with an empty `items` list.  The last
conjunct shows the six-argument `generate_summary` itself would have
produced exactly the two records the claim expects. -/
theorem c1_feedback_completion_summary_empty :
    (feedbackNode g1ex).1.lessonState = .COMPLETE ∧
    (feedbackNode g1ex).1.lessonCompleted = true ∧
    (feedbackNode g1ex).2 =
      [Msg.lessonComplete (fallbackSummary g1ex.completedObjects)] ∧
    (fallbackSummary g1ex.completedObjects).items.length = 0 ∧
    planEx.objects.length = 2 ∧
    (generateSummary planEx g1ex.completedObjects [] g1ex.itemAttempts
      g1ex.itemHintsUsed g1ex.itemGaveUp).items.length = 2 := by
  decide

/-- C6 counterexample: replaying a correlated pair through EVALUATE when the
current item (index 0, three attempts used) is already finalized does change
`completed_objects`: the old entry is filtered out and a fresh entry is
appended at the end, so the list is reordered (and re-judged). -/
theorem c6_replay_changes_completed :
    g6ex.completedObjects = [(0, some false), (1, some false)] ∧
    (evaluateNode g6ex orc0).1.completedObjects =
      [(1, some false), (0, some false)] ∧
    (evaluateNode g6ex orc0).1.completedObjects ≠ g6ex.completedObjects := by
  decide

/-- C6 amended: replaying a correlated answer-attempt pair through EVALUATE
for an already-finalized current item leaves the set of completed item
indices unchanged (the entry is overwritten and moved to the end, or — when
fewer than `max_attempts - 1` attempts were recorded — the item is merely
re-opened for a retry with `completed` untouched), although the list itself
may change. -/
theorem c6_amended (g : GState) (orc : TurnOracle) (plan : Plan)
    (uid txt uid2 url : Str)
    (hplan : g.plan = some plan)
    (hge : 0 ≤ g.currentObjectIndex)
    (hlen : g.currentObjectIndex.toNat < plan.objects.length)
    (hpt : g.pendingTranscription = some (uid, txt))
    (hpi : g.pendingImage = some (uid2, url))
    (hw : g.waitingForRepeat = false)
    (hint : detectUserIntent txt orc.hasContext orc.llmReply =
      .answerAttempt)
    (hmem : g.currentObjectIndex.toNat ∈ g.completedObjects.map Prod.fst) :
    ∀ j, j ∈ (evaluateNode g orc).1.completedObjects.map Prod.fst ↔
      j ∈ g.completedObjects.map Prod.fst := by
  intro j
  unfold evaluateNode
  simp only [hplan]
  rw [if_neg (show ¬ g.currentObjectIndex < 0 by omega)]
  simp only [hpt, hpi]
  rw [if_neg (show ¬ plan.objects.length ≤ g.currentObjectIndex.toNat
    by omega)]
  rw [if_neg (show ¬ g.waitingForRepeat = true by simp [hw])]
  simp only [hint]
  by_cases h3 : 3 ≤ g.itemAttempts g.currentObjectIndex.toNat + 1
  · rw [if_pos (Or.inr h3)]
    show j ∈ ((g.completedObjects.filter
        (fun p => p.1 ≠ g.currentObjectIndex.toNat)) ++
        [(g.currentObjectIndex.toNat, some false)]).map Prod.fst ↔
      j ∈ g.completedObjects.map Prod.fst
    rw [mem_map_fst_filter_append]
    constructor
    · rintro (h | rfl)
      · exact map_fst_filter_subset h
      · exact hmem
    · intro hj
      by_cases hje : j = g.currentObjectIndex.toNat
      · exact Or.inr hje
      · exact Or.inl (mem_map_fst_filter_of_ne hj hje)
  · rw [if_neg (show ¬ (false = true ∨
      3 ≤ g.itemAttempts g.currentObjectIndex.toNat + 1) by simp [h3])]

/-- Witness for C6 amended at the concrete replay state `g6ex` (index 0
finalized, three attempts recorded). -/
theorem c6_amended_witness :
    (0 ∈ (evaluateNode g6ex orc0).1.completedObjects.map Prod.fst ↔
      0 ∈ g6ex.completedObjects.map Prod.fst) ∧
    (2 ∈ (evaluateNode g6ex orc0).1.completedObjects.map Prod.fst ↔
      2 ∈ g6ex.completedObjects.map Prod.fst) :=
  ⟨c6_amended g6ex orc0 planEx "t".toList "banana".toList "t".toList
      "u".toList rfl (by decide) (by decide) rfl rfl rfl (by decide)
      (by decide) 0,
    c6_amended g6ex orc0 planEx "t".toList "banana".toList "t".toList
      "u".toList rfl (by decide) (by decide) rfl rfl rfl (by decide)
      (by decide) 2⟩

/-- C7: in every session state reachable through the WebSocket loop, the
`completed_objects` collection holds at most one outcome entry per item
index (the finalize path filters out the old entry before appending, and
the repeat/skip appends only ever fire for a current item that is not yet
finalized). -/
theorem c7_completed_indices_nodup (s : SessionS) (h : Reachable s) :
    (s.completedObjects.map Prod.fst).Nodup := by
  obtain ⟨es, rfl⟩ := h
  exact (runFrom_SInv es initialSession
    ⟨List.nodup_nil,
      fun _ h2 => absurd (show (0 : Int) ≤ -1 from h2) (by decide)⟩).1

/-- Witness for C7 at the state reached by the correlation demo trace. -/
theorem c7_completed_indices_nodup_witness :
    ((runEvents demoCorr).completedObjects.map Prod.fst).Nodup :=
  c7_completed_indices_nodup (runEvents demoCorr) ⟨demoCorr, rfl⟩

/-- C9: (a) a `dont_know` intent arriving when a hint was already used or a
give-up was already recorded reveals the answer (answer_given message), sets
`waiting_for_repeat`, increments the give-up counter and finalizes nothing;
(b) from any state with `waiting_for_repeat` set, the next correlated pair —
whatever the transcript — finalizes the current item as Incorrect, resets
the flag, emits no evaluation result, leaves the attempt counters untouched,
and does not depend on the transcript or the intent oracles (no evaluation
call is made: the waiting branch returns before intent detection and
judging). -/
theorem c9_reveal_then_unconditional_incorrect :
    (∀ (g : GState) (orc : TurnOracle) (plan : Plan) (uid txt uid2 url : Str),
      g.plan = some plan → 0 ≤ g.currentObjectIndex →
      g.currentObjectIndex.toNat < plan.objects.length →
      g.pendingTranscription = some (uid, txt) →
      g.pendingImage = some (uid2, url) →
      g.waitingForRepeat = false →
      detectUserIntent txt orc.hasContext orc.llmReply = .dontKnow →
      (0 < g.itemHintsUsed g.currentObjectIndex.toNat ∨
        1 ≤ g.itemGaveUp g.currentObjectIndex.toNat) →
      (evaluateNode g orc).1.waitingForRepeat = true ∧
      (evaluateNode g orc).1.itemGaveUp g.currentObjectIndex.toNat =
        g.itemGaveUp g.currentObjectIndex.toNat + 1 ∧
      (evaluateNode g orc).1.completedObjects = g.completedObjects ∧
      (evaluateNode g orc).1.lessonState = .AWAIT_RESPONSE ∧
      (evaluateNode g orc).2 = [Msg.answerGiven]) ∧
    (∀ (g : GState) (orc : TurnOracle) (plan : Plan) (uid txt uid2 url : Str),
      g.plan = some plan → 0 ≤ g.currentObjectIndex →
      g.currentObjectIndex.toNat < plan.objects.length →
      g.pendingTranscription = some (uid, txt) →
      g.pendingImage = some (uid2, url) →
      g.waitingForRepeat = true →
      (evaluateNode g orc).1.completedObjects =
        g.completedObjects ++ [(g.currentObjectIndex.toNat, some false)] ∧
      (evaluateNode g orc).1.waitingForRepeat = false ∧
      (evaluateNode g orc).1.lessonState = .FEEDBACK ∧
      (evaluateNode g orc).1.itemAttempts = g.itemAttempts ∧
      (evaluateNode g orc).2 = []) := by
  constructor
  · intro g orc plan uid txt uid2 url hplan hge hlen hpt hpi hw hint hdk
    unfold evaluateNode
    simp only [hplan]
    rw [if_neg (show ¬ g.currentObjectIndex < 0 by omega)]
    simp only [hpt, hpi]
    rw [if_neg (show ¬ plan.objects.length ≤ g.currentObjectIndex.toNat
      by omega)]
    rw [if_neg (show ¬ g.waitingForRepeat = true by simp [hw])]
    simp only [hint]
    rw [if_pos hdk]
    refine ⟨rfl, ?_, rfl, rfl, rfl⟩
    show updN g.itemGaveUp g.currentObjectIndex.toNat
      (g.itemGaveUp g.currentObjectIndex.toNat + 1)
      g.currentObjectIndex.toNat = _
    simp [updN]
  · intro g orc plan uid txt uid2 url hplan hge hlen hpt hpi hw
    unfold evaluateNode
    simp only [hplan]
    rw [if_neg (show ¬ g.currentObjectIndex < 0 by omega)]
    simp only [hpt, hpi]
    rw [if_neg (show ¬ plan.objects.length ≤ g.currentObjectIndex.toNat
      by omega)]
    rw [if_pos hw]
    exact ⟨rfl, rfl, rfl, rfl, rfl⟩

/-- Witness for C9: the reveal phase at `g9ex` (one hint used, one give-up
recorded) and the unconditional-incorrect phase at `g9b` (repeat flag set),
both on the two-object plan. -/
theorem c9_reveal_then_unconditional_incorrect_witness :
    ((evaluateNode g9ex orc0).1.waitingForRepeat = true ∧
      (evaluateNode g9ex orc0).1.itemGaveUp 0 = g9ex.itemGaveUp 0 + 1 ∧
      (evaluateNode g9ex orc0).1.completedObjects =
        g9ex.completedObjects) ∧
    ((evaluateNode g9b orc0).1.completedObjects =
        g9b.completedObjects ++ [(0, some false)] ∧
      (evaluateNode g9b orc0).1.waitingForRepeat = false ∧
      (evaluateNode g9b orc0).2 = []) := by
  have ha := c9_reveal_then_unconditional_incorrect.1 g9ex orc0 planEx
    "t".toList dkTxt "t".toList "u".toList rfl (by decide) (by decide) rfl
    rfl rfl (by decide) (by decide)
  have hb := c9_reveal_then_unconditional_incorrect.2 g9b orc0 planEx
    "t2".toList "whatever".toList "t2".toList "u".toList rfl (by decide)
    (by decide) rfl rfl rfl
  exact ⟨⟨ha.1, ha.2.1, ha.2.2.1⟩, ⟨hb.1, hb.2.1, hb.2.2.2.2⟩⟩

/-- C5: in every reachable session state, each per-item attempt count is at
most `max_attempts` (3), and an item index appears in `completed_objects`
exactly when the item was judged correct, exhausted its attempts, or was
skipped.  The claim is true, but only degenerately: the graph-entry
invocation after plan generation always fails (`create_lesson_graph`'s
`compile()` raises on the dead-end/unreachable nodes and the caught-error
state is copied back with no `_error` check), so `prompt_user` never runs,
`current_object_index` stays -1 forever, `evaluate_node` always exits at
its index guard, and hence `completed_objects` stays empty and every
attempt counter stays 0 — both sides of the equivalence are always false. -/
theorem c5_attempts_iff_holds (s : SessionS) (h : Reachable s) :
    (∀ i, s.itemAttempts i ≤ 3) ∧
    (∀ i, i ∈ s.completedObjects.map Prod.fst ↔
      ((i, some true) ∈ s.completedObjects ∨ s.itemAttempts i = 3 ∨
        (i, (none : Option Bool)) ∈ s.completedObjects)) := by
  obtain ⟨es, rfl⟩ := h
  have hd : DInv (runEvents es) :=
    runFrom_DInv es initialSession ⟨rfl, fun _ => rfl, rfl⟩
  constructor
  · intro i
    rw [hd.2.1 i]
    omega
  · intro i
    rw [hd.1, hd.2.1 i]
    simp

/-- Witness for C5 at the state reached by the give-up demo trace. -/
theorem c5_attempts_iff_holds_witness :
    (runEvents demoGiveUp).itemAttempts 0 ≤ 3 ∧
    (0 ∈ (runEvents demoGiveUp).completedObjects.map Prod.fst ↔
      (((0 : Nat), some true) ∈ (runEvents demoGiveUp).completedObjects ∨
        (runEvents demoGiveUp).itemAttempts 0 = 3 ∨
        ((0 : Nat), (none : Option Bool)) ∈
          (runEvents demoGiveUp).completedObjects)) :=
  ⟨(c5_attempts_iff_holds (runEvents demoGiveUp) ⟨demoGiveUp, rfl⟩).1 0,
   (c5_attempts_iff_holds (runEvents demoGiveUp) ⟨demoGiveUp, rfl⟩).2 0⟩

end LiveLex
